import Mathlib

/-!
Shallow embedding of the paginated comment-collection engine of
ScarbVis/fastapi-postmetr.

Source files embedded:
  * `commentThread.py` — flat-list builder
    (`get_video_comments_with_conditional_replies`, `get_remaining_replies`)
    with the module-level `api_usage` call counters;
  * `main.py` — grouped builder (`fetch_all_comments`, `filter_comment`);
  * `utils/youtube_utils.py` — grouped builder (same traversal as `main.py`)
    and the single-page relevance-ordered builder (`fetch_top_comments`).

Modelling conventions:
  * An upstream endpoint is modelled as the sequence of HTTP responses it
    delivers, one per request, in request order; the replies endpoint is a
    function from the parent id to such a sequence.  Each embedded fetch
    returns `none` when the run would need more responses than the modelled
    sequence provides (the Python loop would simply block on the network
    there), and otherwise `some` of the value the Python function returns.
  * JSON dictionaries are modelled as structures with `Option` fields;
    `d.get(k, default)` becomes `Option.getD`.  A `topLevelComment` entry
    that is absent or an empty dict (both falsy in Python) is modelled as
    `none`.  The `"replies"`/`"comments"` nesting collapses to one optional
    list, since every reader coalesces a missing level to `[]`.
  * Python truthiness of a `nextPageToken` (`None` and `""` are falsy) is
    `tokenTruthy`.
  * Each embedded fetch also returns the list of upstream HTTP requests it
    issued, in order, mirroring the `params` dict each call site builds.
  * The module-global `api_usage` counters of `commentThread.py` are threaded
    as an explicit `ApiUsage` value: each function takes the counters at
    entry and returns them at exit.
  * Sentiment annotation (`analyze_sentiment`, an external library call) is
    outside the collection engine and is not modelled; `filter_comment` is
    embedded with its remaining fields.
-/

/-- A rendered comment as built by `commentThread.py` (dict with keys
`author`, `text`, `published_at`, `is_reply`). -/
structure Comment where
  author : String
  text : String
  published_at : String
  is_reply : Bool
deriving DecidableEq, Repr

/-- The `snippet` object of a raw upstream comment resource; every field the
code reads, each possibly missing. -/
structure RawCommentSnippet where
  authorDisplayName : Option String
  textDisplay : Option String
  publishedAt : Option String
  likeCount : Option Int
deriving DecidableEq, Repr

/-- A raw upstream comment resource: `{"id": ..., "snippet": {...}}`, both
possibly missing. -/
structure RawComment where
  id : Option String
  snippet : Option RawCommentSnippet
deriving DecidableEq, Repr

/-- Embedding of `comment.get("snippet", {})`. -/
def RawComment.snippetD (c : RawComment) : RawCommentSnippet :=
  c.snippet.getD ⟨none, none, none, none⟩

/-- The empty dict a missing `topLevelComment` collapses to in
`commentThread.py` (`snippet.get("topLevelComment", {})`). -/
def emptyRawComment : RawComment := ⟨none, none⟩

/-- The `snippet` object of a raw commentThreads item. -/
structure ThreadSnippet where
  topLevelComment : Option RawComment
  totalReplyCount : Option Nat
deriving DecidableEq, Repr

/-- A raw item of a commentThreads page.  `replies` models the list at
`item["replies"]["comments"]`, `none` when the `replies` key is absent
(a present `replies` with a missing `comments` list behaves as `some []`). -/
structure ThreadItem where
  snippet : Option ThreadSnippet
  replies : Option (List RawComment)
deriving DecidableEq, Repr

/-- Embedding of `item.get("snippet", {})`. -/
def ThreadItem.snippetD (it : ThreadItem) : ThreadSnippet :=
  it.snippet.getD ⟨none, none⟩

/-- Embedding of `snippet.get("topLevelComment", {})` of `commentThread.py` (missing →
empty dict). -/
def ThreadItem.topLevelD (it : ThreadItem) : RawComment :=
  it.snippetD.topLevelComment.getD emptyRawComment

/-- Embedding of `snippet.get("totalReplyCount", 0)`. -/
def ThreadItem.totalReplyCount (it : ThreadItem) : Nat :=
  it.snippetD.totalReplyCount.getD 0

/-- Embedding of `item.get("replies", {}).get("comments", [])`. -/
def ThreadItem.inlineReplies (it : ThreadItem) : List RawComment :=
  it.replies.getD []

/-- Body of a commentThreads response: `data.get("items", [])` and
`data.get("nextPageToken")`. -/
structure ThreadsData where
  items : Option (List ThreadItem)
  nextPageToken : Option String
deriving DecidableEq, Repr

/-- Body of a comments (replies) response. -/
structure RepliesData where
  items : Option (List RawComment)
  nextPageToken : Option String
deriving DecidableEq, Repr

/-- An upstream HTTP response: status code plus parsed JSON body. -/
structure HttpResponse (α : Type) where
  status_code : Nat
  data : α
deriving DecidableEq, Repr

/-- Python truthiness of a pagination token: `None` and `""` are falsy
(`if next_page_token:`). -/
def tokenTruthy : Option String → Bool
  | none => false
  | some s => !s.isEmpty

/-- The module-level `api_usage` dict of `commentThread.py`. -/
structure ApiUsage where
  commentThreads_calls : Nat
  comments_calls : Nat
deriving DecidableEq, Repr

/-- One outbound HTTP request as the code builds it: the endpoint URL and the
`params` dict fields the call sites set.  A field is `none` when the
parameter is absent from the request (the `requests`/`httpx` libraries drop
`None`-valued params, so a Python `None` parent id is also an absent
parameter on the wire). -/
structure Request where
  endpoint : String
  key : String
  part : String
  videoId : Option String
  parentId : Option String
  textFormat : Option String
  maxResults : Nat
  order : Option String
  pageToken : Option String
deriving DecidableEq, Repr

def commentThreadsEndpoint : String :=
  "https://www.googleapis.com/youtube/v3/commentThreads"

def commentsEndpoint : String :=
  "https://www.googleapis.com/youtube/v3/comments"

/-- The `params` of one `comments`-endpoint request in
`get_remaining_replies`. -/
def repliesRequest (api_key : String) (parent_id : Option String)
    (tok : Option String) : Request :=
  { endpoint := commentsEndpoint
    key := api_key
    part := "snippet"
    videoId := none
    parentId := parent_id
    textFormat := some "plainText"
    maxResults := 100
    order := none
    pageToken := tok }

/-- The `params` of one `commentThreads`-endpoint request in
`get_video_comments_with_conditional_replies`. -/
def threadsRequest (api_key video_id : String) (tok : Option String) :
    Request :=
  { endpoint := commentThreadsEndpoint
    key := api_key
    part := "snippet,replies"
    videoId := some video_id
    parentId := none
    textFormat := some "plainText"
    maxResults := 100
    order := some "time"
    pageToken := tok }

/-- Normalisation of one raw reply into a `Comment` dict, as done both for
inline replies and in `get_remaining_replies`: missing author →
`"Unknown"`, missing text → `""`, missing timestamp → `"N/A"`,
`is_reply = True`. -/
def mkReplyComment (c : RawComment) : Comment :=
  { author := c.snippetD.authorDisplayName.getD "Unknown"
    text := c.snippetD.textDisplay.getD ""
    published_at := c.snippetD.publishedAt.getD "N/A"
    is_reply := true }

/-- Normalisation of the top-level comment in
`get_video_comments_with_conditional_replies`: same defaults,
`is_reply = False`. -/
def mkTopLevelComment (c : RawComment) : Comment :=
  { author := c.snippetD.authorDisplayName.getD "Unknown"
    text := c.snippetD.textDisplay.getD ""
    published_at := c.snippetD.publishedAt.getD "N/A"
    is_reply := false }

/-- Embedding of `get_remaining_replies(api_key, parent_id)` of `commentThread.py`, run
against the modelled response sequence `rs` of the comments endpoint for
this parent.  `tok` is the `pageToken` parameter of the next request
(absent on the first).  Returns the reply list the Python function returns,
the `api_usage` counters at exit, and the requests issued.  On a non-success
response the Python loop breaks and returns what it accumulated so far;
here that is the pages already consumed before the failing one. -/
def get_remaining_replies (api_key : String) (parent_id : Option String) :
    List (HttpResponse RepliesData) → Option String → ApiUsage →
    Option (List Comment × ApiUsage × List Request)
  | [], _, _ => none
  | r :: rest, tok, u =>
    let u1 : ApiUsage := { u with comments_calls := u.comments_calls + 1 }
    let req := repliesRequest api_key parent_id tok
    if r.status_code ≠ 200 then
      some ([], u1, [req])
    else
      let page := (r.data.items.getD []).map mkReplyComment
      if tokenTruthy r.data.nextPageToken then
        match get_remaining_replies api_key parent_id rest
            r.data.nextPageToken u1 with
        | none => none
        | some (cs, u2, reqs) => some (page ++ cs, u2, req :: reqs)
      else
        some (page, u1, [req])

/-- The replies endpoint as an oracle: for a parent id (the `parentId`
parameter; `none` when the Python value is `None`), the response sequence a
remainder-fetch sequence for that parent receives. -/
def RepliesOracle : Type := Option String → List (HttpResponse RepliesData)

/-- Result of a run of the flat builder (or part of one): the accumulated
`all_comments`, the `api_usage` counters at exit, the requests issued in
order, and the parent ids for which a remainder-fetch sequence
(`get_remaining_replies`) was initiated, in order. -/
structure FlatOut where
  comments : List Comment
  usage : ApiUsage
  requests : List Request
  remainderFetches : List (Option String)
deriving DecidableEq, Repr

/-- The body of the `for item in items` loop of
`get_video_comments_with_conditional_replies` for one thread item: append
the top-level comment, append the inline replies, and — only when
`total_reply_count > len(existing_replies)` — run `get_remaining_replies`
for the thread's parent id and append its output. -/
def processThreadItem (api_key : String) (oracle : RepliesOracle)
    (u : ApiUsage) (it : ThreadItem) : Option FlatOut :=
  let top := mkTopLevelComment it.topLevelD
  let inline := it.inlineReplies.map mkReplyComment
  let parent := it.topLevelD.id
  if it.totalReplyCount > it.inlineReplies.length then
    match get_remaining_replies api_key parent (oracle parent) none u with
    | none => none
    | some (extra, u2, reqs) =>
      some ⟨top :: (inline ++ extra), u2, reqs, [parent]⟩
  else
    some ⟨top :: inline, u, [], []⟩

/-- The `for item in items` loop over one page's items, threading the
counters left to right. -/
def processThreadItems (api_key : String) (oracle : RepliesOracle)
    (u : ApiUsage) : List ThreadItem → Option FlatOut
  | [] => some ⟨[], u, [], []⟩
  | it :: rest =>
    match processThreadItem api_key oracle u it with
    | none => none
    | some o1 =>
      match processThreadItems api_key oracle o1.usage rest with
      | none => none
      | some o2 =>
        some ⟨o1.comments ++ o2.comments, o2.usage,
              o1.requests ++ o2.requests,
              o1.remainderFetches ++ o2.remainderFetches⟩

/-- Embedding of `get_video_comments_with_conditional_replies` of
`commentThread.py`, run against the modelled response sequence `rs` of the
commentThreads endpoint and the replies-endpoint oracle.  `tok` is the
`pageToken` of the next request (absent on the first).  On a non-success
response the Python loop prints the body and breaks, returning the comments
accumulated from the earlier successful pages. -/
def get_video_comments_with_conditional_replies (api_key video_id : String)
    (oracle : RepliesOracle) :
    List (HttpResponse ThreadsData) → Option String → ApiUsage →
    Option FlatOut
  | [], _, _ => none
  | r :: rest, tok, u =>
    let u1 : ApiUsage :=
      { u with commentThreads_calls := u.commentThreads_calls + 1 }
    let req := threadsRequest api_key video_id tok
    if r.status_code ≠ 200 then
      some ⟨[], u1, [req], []⟩
    else
      match processThreadItems api_key oracle u1 (r.data.items.getD []) with
      | none => none
      | some o1 =>
        if tokenTruthy r.data.nextPageToken then
          match get_video_comments_with_conditional_replies api_key video_id
              oracle rest r.data.nextPageToken o1.usage with
          | none => none
          | some o2 =>
            some ⟨o1.comments ++ o2.comments, o2.usage,
                  req :: (o1.requests ++ o2.requests),
                  o1.remainderFetches ++ o2.remainderFetches⟩
        else
          some ⟨o1.comments, o1.usage, req :: o1.requests,
                o1.remainderFetches⟩

/-- A comment record as built by `filter_comment` of `main.py` /
`utils/youtube_utils.py` (the sentiment annotation, an external
collaborator, is not modelled): `id`, `author`, `publishedAt` and
`likeCount` pass through as possibly-absent values; only `text` defaults
to `""`. -/
structure FilteredComment where
  id : Option String
  author : Option String
  text : String
  publishedAt : Option String
  likeCount : Option Int
deriving DecidableEq, Repr

/-- Embedding of `filter_comment(comment)` of `main.py` / `utils/youtube_utils.py`. -/
def filter_comment (c : RawComment) : FilteredComment :=
  { id := c.id
    author := c.snippetD.authorDisplayName
    text := c.snippetD.textDisplay.getD ""
    publishedAt := c.snippetD.publishedAt
    likeCount := c.snippetD.likeCount }

/-- One `{"comment": ..., "replies": [...]}` record of the grouped
builders. -/
structure CommentGroup where
  comment : FilteredComment
  replies : List FilteredComment
deriving DecidableEq, Repr

/-- The raised `HTTPException(status_code, detail)`. -/
structure HttpError where
  status_code : Nat
  detail : String
deriving DecidableEq, Repr

/-- The per-item step shared by the grouped builders (`fetch_all_comments`
of `main.py` and of `utils/youtube_utils.py`, and the item loop of
`fetch_top_comments`): an item whose `topLevelComment` is absent (or an
empty, falsy dict) is skipped; otherwise it becomes one group of the
filtered top-level comment and its filtered inline replies. -/
def groupOfItem (it : ThreadItem) : Option CommentGroup :=
  match it.snippetD.topLevelComment with
  | none => none
  | some top =>
    some ⟨filter_comment top, (it.replies.getD []).map filter_comment⟩

/-- The `for item in ...` loop of the grouped builders over one page's
items. -/
def processGroupedItems (items : List ThreadItem) : List CommentGroup :=
  items.filterMap groupOfItem

/-- The `params` of one request of `fetch_all_comments` (`main.py` and
`utils/youtube_utils.py`): no `order` parameter. -/
def groupedThreadsRequest (api_key video_id : String) (tok : Option String) :
    Request :=
  { endpoint := commentThreadsEndpoint
    key := api_key
    part := "snippet,replies"
    videoId := some video_id
    parentId := none
    textFormat := some "plainText"
    maxResults := 100
    order := none
    pageToken := tok }

/-- Embedding of `fetch_all_comments(client, video_id)` of `main.py` (the traversal of
`utils/youtube_utils.py` is line-for-line the same), run against the
modelled commentThreads response sequence.  A non-success status raises
`HTTPException(status_code, "Error fetching comments")`; the requests
issued up to and including the failing one are returned alongside. -/
def fetch_all_comments (api_key video_id : String) :
    List (HttpResponse ThreadsData) → Option String →
    Option (List Request × Except HttpError (List CommentGroup))
  | [], _ => none
  | r :: rest, tok =>
    let req := groupedThreadsRequest api_key video_id tok
    if r.status_code ≠ 200 then
      some ([req], .error ⟨r.status_code, "Error fetching comments"⟩)
    else
      let groups := processGroupedItems (r.data.items.getD [])
      if tokenTruthy r.data.nextPageToken then
        match fetch_all_comments api_key video_id rest
            r.data.nextPageToken with
        | none => none
        | some (reqs, .error e) => some (req :: reqs, .error e)
        | some (reqs, .ok gs) => some (req :: reqs, .ok (groups ++ gs))
      else
        some ([req], .ok groups)

/-- The `params` of the single request of `fetch_top_comments`. -/
def topCommentsRequest (api_key video_id : String) (limit : Nat) : Request :=
  { endpoint := commentThreadsEndpoint
    key := api_key
    part := "snippet,replies"
    videoId := some video_id
    parentId := none
    textFormat := some "plainText"
    maxResults := min limit 100
    order := some "relevance"
    pageToken := none }

/-- Embedding of `fetch_top_comments(client, video_id, limit)` of
`utils/youtube_utils.py`: one relevance-ordered request, no pagination,
items truncated to `limit`, then the shared grouped item loop.  A
non-success status raises
`HTTPException(status_code, "Error fetching top comments")`. -/
def fetch_top_comments (api_key video_id : String) (limit : Nat)
    (r : HttpResponse ThreadsData) :
    List Request × Except HttpError (List CommentGroup) :=
  let req := topCommentsRequest api_key video_id limit
  if r.status_code ≠ 200 then
    ([req], .error ⟨r.status_code, "Error fetching top comments"⟩)
  else
    ([req], .ok (processGroupedItems ((r.data.items.getD []).take limit)))

/-- Embedding of `fetch_top_comments` with its Python default `limit=100`. -/
def fetch_top_comments_default (api_key video_id : String)
    (r : HttpResponse ThreadsData) :
    List Request × Except HttpError (List CommentGroup) :=
  fetch_top_comments api_key video_id 100 r

/-! ### Derived notions used by the statements -/

/-- A complete successful delivery by a paginated endpoint, reply side: at
least one response, every response a success, every response but the last
carrying a (truthy) continuation token and the last carrying none. -/
def goodRepliesStream : List (HttpResponse RepliesData) → Bool
  | [] => false
  | [r] => r.status_code == 200 && !(tokenTruthy r.data.nextPageToken)
  | r :: rest =>
    r.status_code == 200 && tokenTruthy r.data.nextPageToken &&
      goodRepliesStream rest

/-- Same notion for the threads endpoint. -/
def goodThreadsStream : List (HttpResponse ThreadsData) → Bool
  | [] => false
  | [r] => r.status_code == 200 && !(tokenTruthy r.data.nextPageToken)
  | r :: rest =>
    r.status_code == 200 && tokenTruthy r.data.nextPageToken &&
      goodThreadsStream rest

/-- All items delivered by a replies-endpoint response sequence, in delivery
order, normalised. -/
def repliesOf (rs : List (HttpResponse RepliesData)) : List Comment :=
  (rs.map fun r => (r.data.items.getD []).map mkReplyComment).flatten

/-- The items of one threads page (`data.get("items", [])`). -/
def pageItems (r : HttpResponse ThreadsData) : List ThreadItem :=
  r.data.items.getD []

/-- The slice of the flat output contributed by one thread item on a fully
successful run: its top-level comment, then its inline replies, then — when
the declared count exceeds the inline count — everything the replies
endpoint delivers for its parent id. -/
def itemBlock (oracle : RepliesOracle) (it : ThreadItem) : List Comment :=
  mkTopLevelComment it.topLevelD ::
    (it.inlineReplies.map mkReplyComment ++
      (if it.totalReplyCount > it.inlineReplies.length
       then repliesOf (oracle it.topLevelD.id) else []))

/-- The whole flat corpus of a fully successful run. -/
def flatCorpus (oracle : RepliesOracle)
    (rs : List (HttpResponse ThreadsData)) : List Comment :=
  (rs.map fun r => ((pageItems r).map (itemBlock oracle)).flatten).flatten

/-- How many threads-endpoint requests the `commentThread.py` pagination
loop issues against a given response sequence: one for the head, and more
for the tail exactly when the head was a success carrying a truthy
continuation token. -/
def threadsPagesConsumed : List (HttpResponse ThreadsData) → Nat
  | [] => 0
  | r :: rest =>
    1 + (if r.status_code == 200 && tokenTruthy r.data.nextPageToken
         then threadsPagesConsumed rest else 0)

/-! ### Concrete fixtures -/

/-- A fully populated raw snippet. -/
def sampleSnippet (a t p : String) : RawCommentSnippet :=
  ⟨some a, some t, some p, none⟩

/-- A fully populated raw comment. -/
def sampleRaw (i a t p : String) : RawComment :=
  ⟨some i, some (sampleSnippet a t p)⟩

/-- A replies oracle that delivers nothing (no remainder fetch consults
it in the runs that use it). -/
def emptyOracle : RepliesOracle := fun _ => []

/-- Fixture: a thread with no replies at all. -/
def fixSimpleItem : ThreadItem :=
  ⟨some ⟨some (sampleRaw "id1" "alice" "hi" "2020"), some 0⟩, none⟩

/-- Fixture: a successful first threads page (one simple item) carrying a
continuation token, followed by a 500 on the second page. -/
def fixOkThenErrStream : List (HttpResponse ThreadsData) :=
  [⟨200, ⟨some [fixSimpleItem], some "t2"⟩⟩, ⟨500, ⟨some [], none⟩⟩]

/-- Fixture raw replies. -/
def fixRawR1 : RawComment := sampleRaw "r1" "bob" "one" "2021"

def fixRawR2 : RawComment := sampleRaw "r2" "carol" "two" "2022"

/-- Fixture: a thread declaring 2 replies with 1 inline. -/
def fixDupItem : ThreadItem :=
  ⟨some ⟨some (sampleRaw "p" "alice" "hi" "2020"), some 2⟩, some [fixRawR1]⟩

/-- Fixture oracle: the replies endpoint for parent `"p"` delivers both
replies (the inline one included, as the real `comments` endpoint does) in
one page. -/
def fixDupOracle : RepliesOracle := fun p =>
  if p = some "p" then [⟨200, ⟨some [fixRawR1, fixRawR2], none⟩⟩] else []

/-- Fixture: a thread declaring 10 replies with none inline. -/
def fixManyItem : ThreadItem :=
  ⟨some ⟨some (sampleRaw "b" "bob" "yo" "2021"), some 10⟩, none⟩

/-- Fixture: an error response that itself carries a continuation token. -/
def fixErrWithCursor : HttpResponse ThreadsData := ⟨500, ⟨some [], some "t2"⟩⟩

/-- Fixture: a success response whose continuation token is the empty
string (falsy in Python). -/
def fixEmptyTokenPage : HttpResponse ThreadsData := ⟨200, ⟨some [], some ""⟩⟩

/-- Fixture: a success page with no items and no token. -/
def fixEmptyLastPage : HttpResponse ThreadsData := ⟨200, ⟨some [], none⟩⟩

/-! ### Helper lemmas -/

theorem grr_usage_spec (k : String) (p : Option String) :
    ∀ (rs : List (HttpResponse RepliesData)) (tok : Option String)
      (u : ApiUsage) (cs : List Comment) (u' : ApiUsage)
      (reqs : List Request),
      get_remaining_replies k p rs tok u = some (cs, u', reqs) →
      u' = ⟨u.commentThreads_calls, u.comments_calls + reqs.length⟩ ∧
        1 ≤ reqs.length ∧
        ∀ q ∈ reqs, q.endpoint = commentsEndpoint ∧ q.parentId = p := by
  intro rs
  induction rs with
  | nil =>
    intro tok u cs u' reqs h
    simp [get_remaining_replies] at h
  | cons r rest ih =>
    intro tok u cs u' reqs h
    simp only [get_remaining_replies] at h
    split at h
    next hs =>
      simp only [Option.some.injEq, Prod.mk.injEq] at h
      obtain ⟨hcs, hu, hreqs⟩ := h
      subst hcs hu hreqs
      refine ⟨rfl, by simp, ?_⟩
      intro q hq
      simp only [List.mem_singleton] at hq
      subst hq
      exact ⟨rfl, rfl⟩
    next hs =>
      split at h
      next ht =>
        cases hrec : get_remaining_replies k p rest r.data.nextPageToken
            { u with comments_calls := u.comments_calls + 1 } with
        | none => rw [hrec] at h; exact absurd h (by simp)
        | some v =>
          obtain ⟨cs2, u2, reqs2⟩ := v
          rw [hrec] at h
          simp only [Option.some.injEq, Prod.mk.injEq] at h
          obtain ⟨hcs, hu, hreqs⟩ := h
          subst hcs hu hreqs
          obtain ⟨ihu, ihlen, ihmem⟩ := ih _ _ _ _ _ hrec
          refine ⟨?_, by simp, ?_⟩
          · rw [ihu]; simp; try omega
          · intro q hq
            rcases List.mem_cons.mp hq with hq | hq
            · subst hq; exact ⟨rfl, rfl⟩
            · exact ihmem q hq
      next ht =>
        simp only [Option.some.injEq, Prod.mk.injEq] at h
        obtain ⟨hcs, hu, hreqs⟩ := h
        subst hcs hu hreqs
        refine ⟨rfl, by simp, ?_⟩
        intro q hq
        simp only [List.mem_singleton] at hq
        subst hq
        exact ⟨rfl, rfl⟩

theorem grr_good_spec (k : String) (p : Option String) :
    ∀ (rs : List (HttpResponse RepliesData)) (tok : Option String)
      (u : ApiUsage),
      goodRepliesStream rs = true →
      ∃ reqs : List Request,
        get_remaining_replies k p rs tok u =
          some (repliesOf rs,
                ⟨u.commentThreads_calls, u.comments_calls + rs.length⟩,
                reqs) ∧
        reqs.length = rs.length := by
  intro rs
  induction rs with
  | nil => intro tok u h; simp [goodRepliesStream] at h
  | cons r rest ih =>
    intro tok u h
    cases rest with
    | nil =>
      simp only [goodRepliesStream, Bool.and_eq_true, beq_iff_eq,
        Bool.not_eq_true'] at h
      obtain ⟨hs, ht⟩ := h
      refine ⟨[repliesRequest k p tok], ?_, rfl⟩
      simp [get_remaining_replies, hs, ht, repliesOf]
    | cons r2 rest2 =>
      simp only [goodRepliesStream, Bool.and_eq_true, beq_iff_eq] at h
      obtain ⟨⟨hs, ht⟩, hg⟩ := h
      obtain ⟨reqs2, hrec, hlen⟩ := ih r.data.nextPageToken
        { u with comments_calls := u.comments_calls + 1 } hg
      refine ⟨repliesRequest k p tok :: reqs2, ?_, by simp [hlen]⟩
      rw [get_remaining_replies]
      simp only [hs, ht, ne_eq, not_true_eq_false, if_false, ite_true, ite_false, reduceIte]
      rw [hrec]
      simp [repliesOf]
      omega

/-- Every comment produced by the replies endpoint normalisation is tagged
`is_reply = true`. -/
theorem repliesOf_is_reply (rs : List (HttpResponse RepliesData)) :
    ∀ c ∈ repliesOf rs, c.is_reply = true := by
  intro c hc
  simp only [repliesOf, List.mem_flatten, List.mem_map] at hc
  obtain ⟨l, ⟨r, _, hl⟩, hcl⟩ := hc
  subst hl
  obtain ⟨raw, _, hraw⟩ := List.mem_map.mp hcl
  subst hraw
  rfl

/-- The number of comments delivered is the sum of the page item counts. -/
theorem repliesOf_length (rs : List (HttpResponse RepliesData)) :
    (repliesOf rs).length =
      (rs.map fun r => (r.data.items.getD []).length).sum := by
  simp only [repliesOf, List.length_flatten, List.map_map]
  apply congrArg
  apply List.map_congr_left
  intro r _
  simp [Function.comp]

def isThreadsReq (q : Request) : Bool := q.endpoint == commentThreadsEndpoint

def isCommentsReq (q : Request) : Bool := q.endpoint == commentsEndpoint

theorem endpoints_distinct : commentThreadsEndpoint ≠ commentsEndpoint := by
  decide

/-- Counter bookkeeping of `processThreadItem`: only the comments endpoint
is touched, once per issued request. -/
theorem processThreadItem_usage (k : String) (o : RepliesOracle)
    (u : ApiUsage) (it : ThreadItem) (out : FlatOut)
    (h : processThreadItem k o u it = some out) :
    out.usage = ⟨u.commentThreads_calls,
                 u.comments_calls + out.requests.length⟩ ∧
      ∀ q ∈ out.requests, q.endpoint = commentsEndpoint := by
  simp only [processThreadItem] at h
  split at h
  · cases hrec : get_remaining_replies k it.topLevelD.id
        (o it.topLevelD.id) none u with
    | none => rw [hrec] at h; exact absurd h (by simp)
    | some v =>
      obtain ⟨cs2, u2, reqs2⟩ := v
      rw [hrec] at h
      simp only [Option.some.injEq] at h
      subst h
      obtain ⟨hu, _, hmem⟩ := grr_usage_spec k it.topLevelD.id _ _ _ _ _ _ hrec
      exact ⟨hu, fun q hq => (hmem q hq).1⟩
  · simp only [Option.some.injEq] at h
    subst h
    exact ⟨rfl, by simp⟩

/-- The function `processThreadItem` initiates a remainder-fetch sequence exactly when
the declared count exceeds the inline count, and then exactly one, for the
thread's own parent id. -/
theorem processThreadItem_fetches (k : String) (o : RepliesOracle)
    (u : ApiUsage) (it : ThreadItem) (out : FlatOut)
    (h : processThreadItem k o u it = some out) :
    out.remainderFetches =
      if it.totalReplyCount > it.inlineReplies.length
      then [it.topLevelD.id] else [] := by
  simp only [processThreadItem] at h
  split at h
  next hc =>
    cases hrec : get_remaining_replies k it.topLevelD.id
        (o it.topLevelD.id) none u with
    | none => rw [hrec] at h; exact absurd h (by simp)
    | some v =>
      obtain ⟨cs2, u2, reqs2⟩ := v
      rw [hrec] at h
      simp only [Option.some.injEq] at h
      subst h
      simp [hc]
  next hc =>
    simp only [Option.some.injEq] at h
    subst h
    simp [hc]

/-- With sufficient inline replies, `processThreadItem` issues no request
and leaves the counters untouched. -/
theorem processThreadItem_notrigger (k : String) (o : RepliesOracle)
    (u : ApiUsage) (it : ThreadItem)
    (hc : ¬ it.totalReplyCount > it.inlineReplies.length) :
    processThreadItem k o u it =
      some ⟨mkTopLevelComment it.topLevelD ::
              it.inlineReplies.map mkReplyComment, u, [], []⟩ := by
  simp [processThreadItem, hc]

/-- With the threshold exceeded and the remainder fetch returning, the
item's slice is: top-level, then the inline replies, then the endpoint
output appended. -/
theorem processThreadItem_trigger (k : String) (o : RepliesOracle)
    (u : ApiUsage) (it : ThreadItem) (extra : List Comment) (u2 : ApiUsage)
    (reqs : List Request)
    (hc : it.totalReplyCount > it.inlineReplies.length)
    (hr : get_remaining_replies k it.topLevelD.id (o it.topLevelD.id)
            none u = some (extra, u2, reqs)) :
    processThreadItem k o u it =
      some ⟨mkTopLevelComment it.topLevelD ::
              (it.inlineReplies.map mkReplyComment ++ extra),
            u2, reqs, [it.topLevelD.id]⟩ := by
  simp [processThreadItem, hc, hr]

/-- On a fully successful run, `processThreadItem` yields exactly the
item's block. -/
theorem processThreadItem_good (k : String) (o : RepliesOracle)
    (u : ApiUsage) (it : ThreadItem)
    (hg : it.totalReplyCount > it.inlineReplies.length →
          goodRepliesStream (o it.topLevelD.id) = true) :
    ∃ (u' : ApiUsage) (reqs : List Request),
      processThreadItem k o u it =
        some ⟨itemBlock o it, u', reqs,
          if it.totalReplyCount > it.inlineReplies.length
          then [it.topLevelD.id] else []⟩ := by
  by_cases hc : it.totalReplyCount > it.inlineReplies.length
  · obtain ⟨reqs, hr, _⟩ :=
      grr_good_spec k it.topLevelD.id (o it.topLevelD.id) none u (hg hc)
    refine ⟨⟨u.commentThreads_calls,
      u.comments_calls + (o it.topLevelD.id).length⟩, reqs, ?_⟩
    rw [processThreadItem_trigger k o u it _ _ _ hc hr]
    simp [itemBlock, hc]
  · refine ⟨u, [], ?_⟩
    rw [processThreadItem_notrigger k o u it hc]
    simp [itemBlock, hc]

/-- Counter bookkeeping of the item loop: only the comments endpoint is
touched, once per issued request. -/
theorem processThreadItems_usage (k : String) (o : RepliesOracle) :
    ∀ (items : List ThreadItem) (u : ApiUsage) (out : FlatOut),
      processThreadItems k o u items = some out →
      out.usage = ⟨u.commentThreads_calls,
                   u.comments_calls + out.requests.length⟩ ∧
        ∀ q ∈ out.requests, q.endpoint = commentsEndpoint := by
  intro items
  induction items with
  | nil =>
    intro u out h
    simp only [processThreadItems, Option.some.injEq] at h
    subst h
    exact ⟨rfl, by simp⟩
  | cons it rest ih =>
    intro u out h
    simp only [processThreadItems] at h
    cases h1 : processThreadItem k o u it with
    | none => simp [h1] at h
    | some o1 =>
      cases h2 : processThreadItems k o o1.usage rest with
      | none => simp [h1, h2] at h
      | some o2 =>
        simp only [h1, h2, Option.some.injEq] at h
        subst h
        obtain ⟨hu1, hm1⟩ := processThreadItem_usage k o u it o1 h1
        obtain ⟨hu2, hm2⟩ := ih o1.usage o2 h2
        constructor
        · rw [hu2, hu1]
          simp
          omega
        · intro q hq
          rcases List.mem_append.mp hq with hq | hq
          · exact hm1 q hq
          · exact hm2 q hq

/-- On a fully successful run the item loop yields the concatenation of the
item blocks. -/
theorem processThreadItems_good (k : String) (o : RepliesOracle) :
    ∀ (items : List ThreadItem) (u : ApiUsage),
      (∀ it ∈ items, it.totalReplyCount > it.inlineReplies.length →
        goodRepliesStream (o it.topLevelD.id) = true) →
      ∃ (u' : ApiUsage) (reqs : List Request) (ps : List (Option String)),
        processThreadItems k o u items =
          some ⟨(items.map (itemBlock o)).flatten, u', reqs, ps⟩ := by
  intro items
  induction items with
  | nil =>
    intro u _
    exact ⟨u, [], [], by simp [processThreadItems]⟩
  | cons it rest ih =>
    intro u hg
    obtain ⟨u1, reqs1, h1⟩ := processThreadItem_good k o u it
      (fun hc => hg it (by simp) hc)
    obtain ⟨u2, reqs2, ps2, h2⟩ := ih u1
      (fun x hx hc => hg x (by simp [hx]) hc)
    refine ⟨u2, reqs1 ++ reqs2,
      (if it.totalReplyCount > it.inlineReplies.length
       then [it.topLevelD.id] else []) ++ ps2, ?_⟩
    simp only [processThreadItems, h1, h2]
    simp

theorem countP_comments_of_all (l : List Request)
    (h : ∀ q ∈ l, q.endpoint = commentsEndpoint) :
    l.countP isThreadsReq = 0 ∧ l.countP isCommentsReq = l.length := by
  constructor
  · rw [List.countP_eq_zero]
    intro q hq
    simp [isThreadsReq, h q hq]
    decide
  · rw [List.countP_eq_length]
    intro q hq
    simp [isCommentsReq, h q hq]

/-- Counter bookkeeping of the flat builder: the `commentThreads_calls`
counter advances by exactly the number of threads-endpoint requests issued
and `comments_calls` by exactly the number of comments-endpoint requests
issued — error responses included, since the counter is bumped before each
request. -/
theorem flat_usage (k v : String) (o : RepliesOracle) :
    ∀ (rs : List (HttpResponse ThreadsData)) (tok : Option String)
      (u : ApiUsage) (out : FlatOut),
      get_video_comments_with_conditional_replies k v o rs tok u =
        some out →
      out.usage = ⟨u.commentThreads_calls + out.requests.countP isThreadsReq,
                   u.comments_calls + out.requests.countP isCommentsReq⟩ := by
  intro rs
  induction rs with
  | nil =>
    intro tok u out h
    simp [get_video_comments_with_conditional_replies] at h
  | cons r rest ih =>
    intro tok u out h
    simp only [get_video_comments_with_conditional_replies] at h
    split at h
    next hs =>
      simp only [Option.some.injEq] at h
      subst h
      simp [isThreadsReq, isCommentsReq, threadsRequest]
      decide
    next hs =>
      cases h1 : processThreadItems k o
          { u with commentThreads_calls := u.commentThreads_calls + 1 }
          (r.data.items.getD []) with
      | none => simp only [h1] at h; exact Option.noConfusion h
      | some o1 =>
        simp only [h1] at h
        obtain ⟨hu1, hm1⟩ := processThreadItems_usage k o _ _ _ h1
        obtain ⟨hc1, hc2⟩ := countP_comments_of_all o1.requests hm1
        split at h
        next ht =>
          cases h2 : get_video_comments_with_conditional_replies k v o rest
              r.data.nextPageToken o1.usage with
          | none => simp only [h2] at h; exact Option.noConfusion h
          | some o2 =>
            have hu2 := ih r.data.nextPageToken o1.usage o2 h2
            simp only [h2, Option.some.injEq] at h
            subst h
            simp only [List.countP_cons, List.countP_append]
            rw [hu2, hu1]
            simp [isThreadsReq, isCommentsReq, threadsRequest, hc1, hc2,
              endpoints_distinct]
            try constructor
            all_goals omega
        next ht =>
          simp only [Option.some.injEq] at h
          subst h
          simp only [List.countP_cons]
          rw [hu1]
          simp [isThreadsReq, isCommentsReq, threadsRequest, hc1, hc2,
            endpoints_distinct]

/-- The flat builder issues exactly `threadsPagesConsumed rs` requests to
the threads endpoint: it requests a further page exactly after a successful
response carrying a truthy continuation token. -/
theorem flat_requests_pages (k v : String) (o : RepliesOracle) :
    ∀ (rs : List (HttpResponse ThreadsData)) (tok : Option String)
      (u : ApiUsage) (out : FlatOut),
      get_video_comments_with_conditional_replies k v o rs tok u =
        some out →
      out.requests.countP isThreadsReq = threadsPagesConsumed rs := by
  intro rs
  induction rs with
  | nil =>
    intro tok u out h
    simp [get_video_comments_with_conditional_replies] at h
  | cons r rest ih =>
    intro tok u out h
    simp only [get_video_comments_with_conditional_replies] at h
    split at h
    next hs =>
      simp only [Option.some.injEq] at h
      subst h
      have hs' : (r.status_code == 200) = false := by
        simp [hs]
      simp [threadsPagesConsumed, hs', isThreadsReq, threadsRequest]
    next hs =>
      have hs' : (r.status_code == 200) = true := by
        simp at hs
        simp [hs]
      cases h1 : processThreadItems k o
          { u with commentThreads_calls := u.commentThreads_calls + 1 }
          (r.data.items.getD []) with
      | none => simp only [h1] at h; exact Option.noConfusion h
      | some o1 =>
        simp only [h1] at h
        obtain ⟨_, hm1⟩ := processThreadItems_usage k o _ _ _ h1
        obtain ⟨hc1, _⟩ := countP_comments_of_all o1.requests hm1
        split at h
        next ht =>
          cases h2 : get_video_comments_with_conditional_replies k v o rest
              r.data.nextPageToken o1.usage with
          | none => simp only [h2] at h; exact Option.noConfusion h
          | some o2 =>
            have hrec := ih r.data.nextPageToken o1.usage o2 h2
            simp only [h2, Option.some.injEq] at h
            subst h
            simp only [List.countP_cons, List.countP_append, hc1, hrec,
              threadsPagesConsumed, hs', ht]
            simp [isThreadsReq, threadsRequest]
            omega
        next ht =>
          simp only [Option.some.injEq] at h
          subst h
          have ht' : tokenTruthy r.data.nextPageToken = false := by
            simp at ht
            exact ht
          simp only [List.countP_cons, hc1, threadsPagesConsumed, hs', ht']
          simp [isThreadsReq, threadsRequest]

/-- When the head response is not a success carrying a truthy continuation
token, the flat builder's result does not depend on any later response:
the loop halts after this page. -/
theorem flat_halt (k v : String) (o : RepliesOracle)
    (r : HttpResponse ThreadsData) (rest : List (HttpResponse ThreadsData))
    (tok : Option String) (u : ApiUsage)
    (h : ¬(r.status_code = 200 ∧ tokenTruthy r.data.nextPageToken = true)) :
    get_video_comments_with_conditional_replies k v o (r :: rest) tok u =
      get_video_comments_with_conditional_replies k v o [r] tok u := by
  by_cases hs : r.status_code = 200
  · have ht : tokenTruthy r.data.nextPageToken = false := by
      cases hh : tokenTruthy r.data.nextPageToken
      · rfl
      · exact absurd ⟨hs, hh⟩ h
    simp [get_video_comments_with_conditional_replies, hs, ht]
  · simp [get_video_comments_with_conditional_replies, hs]

/-- A success page with no items and no continuation token produces the
empty corpus (and no failure), consuming one threads request. -/
theorem flat_empty_page (k v : String) (o : RepliesOracle)
    (r : HttpResponse ThreadsData) (rest : List (HttpResponse ThreadsData))
    (tok : Option String) (u : ApiUsage)
    (hs : r.status_code = 200) (hi : r.data.items.getD [] = [])
    (ht : tokenTruthy r.data.nextPageToken = false) :
    get_video_comments_with_conditional_replies k v o (r :: rest) tok u =
      some ⟨[], ⟨u.commentThreads_calls + 1, u.comments_calls⟩,
            [threadsRequest k v tok], []⟩ := by
  simp [get_video_comments_with_conditional_replies, hs, ht, hi,
    processThreadItems]

/-- On a fully successful run the flat builder returns the whole corpus of
item blocks, page by page. -/
theorem flat_good (k v : String) (o : RepliesOracle) :
    ∀ (rs : List (HttpResponse ThreadsData)) (tok : Option String)
      (u : ApiUsage),
      goodThreadsStream rs = true →
      (∀ r ∈ rs, ∀ it ∈ pageItems r,
        it.totalReplyCount > it.inlineReplies.length →
        goodRepliesStream (o it.topLevelD.id) = true) →
      ∃ (u' : ApiUsage) (reqs : List Request) (ps : List (Option String)),
        get_video_comments_with_conditional_replies k v o rs tok u =
          some ⟨flatCorpus o rs, u', reqs, ps⟩ := by
  intro rs
  induction rs with
  | nil =>
    intro tok u h _
    simp [goodThreadsStream] at h
  | cons r rest ih =>
    intro tok u h hg
    cases rest with
    | nil =>
      simp only [goodThreadsStream, Bool.and_eq_true, beq_iff_eq,
        Bool.not_eq_true'] at h
      obtain ⟨hs, ht⟩ := h
      obtain ⟨u1, reqs1, ps1, h1⟩ := processThreadItems_good k o
        (pageItems r)
        { u with commentThreads_calls := u.commentThreads_calls + 1 }
        (fun it hit hc => hg r (by simp) it hit hc)
      refine ⟨u1, threadsRequest k v tok :: reqs1, ps1, ?_⟩
      simp only [get_video_comments_with_conditional_replies, hs, ht]
      simp only [pageItems] at h1
      simp [h1, flatCorpus, pageItems]
    | cons r2 rest2 =>
      simp only [goodThreadsStream, Bool.and_eq_true, beq_iff_eq] at h
      obtain ⟨⟨hs, ht⟩, hgt⟩ := h
      obtain ⟨u1, reqs1, ps1, h1⟩ := processThreadItems_good k o
        (pageItems r)
        { u with commentThreads_calls := u.commentThreads_calls + 1 }
        (fun it hit hc => hg r (by simp) it hit hc)
      obtain ⟨u2, reqs2, ps2, h2⟩ := ih r.data.nextPageToken u1 hgt
        (fun x hx it hit hc => hg x (by simp [hx]) it hit hc)
      refine ⟨u2, threadsRequest k v tok :: (reqs1 ++ reqs2), ps1 ++ ps2, ?_⟩
      rw [get_video_comments_with_conditional_replies]
      simp only [pageItems] at h1
      simp only [hs, ht, ne_eq, not_true_eq_false, if_false, reduceIte, h1,
        ite_true]
      rw [h2]
      simp [flatCorpus, pageItems]

/-- Every request the grouped builder issues goes to the threads endpoint:
it never calls the replies endpoint, whatever the declared reply counts. -/
theorem grouped_all_threads_reqs (k v : String) :
    ∀ (rs : List (HttpResponse ThreadsData)) (tok : Option String)
      (reqs : List Request) (res : Except HttpError (List CommentGroup)),
      fetch_all_comments k v rs tok = some (reqs, res) →
      ∀ q ∈ reqs, q.endpoint = commentThreadsEndpoint := by
  intro rs
  induction rs with
  | nil =>
    intro tok reqs res h
    simp [fetch_all_comments] at h
  | cons r rest ih =>
    intro tok reqs res h
    simp only [fetch_all_comments] at h
    split at h
    next hs =>
      simp only [Option.some.injEq, Prod.mk.injEq] at h
      obtain ⟨h1, _⟩ := h
      subst h1
      intro q hq
      simp only [List.mem_singleton] at hq
      subst hq
      rfl
    next hs =>
      split at h
      next ht =>
        cases h2 : fetch_all_comments k v rest r.data.nextPageToken with
        | none => simp only [h2] at h; exact Option.noConfusion h
        | some pr =>
          obtain ⟨reqs2, res2⟩ := pr
          have hrec := ih r.data.nextPageToken reqs2 res2 h2
          simp only [h2] at h
          cases res2 with
          | error e =>
            simp only [Option.some.injEq, Prod.mk.injEq] at h
            obtain ⟨h1, _⟩ := h
            subst h1
            intro q hq
            rcases List.mem_cons.mp hq with hq | hq
            · subst hq; rfl
            · exact hrec q hq
          | ok gs =>
            simp only [Option.some.injEq, Prod.mk.injEq] at h
            obtain ⟨h1, _⟩ := h
            subst h1
            intro q hq
            rcases List.mem_cons.mp hq with hq | hq
            · subst hq; rfl
            · exact hrec q hq
      next ht =>
        simp only [Option.some.injEq, Prod.mk.injEq] at h
        obtain ⟨h1, _⟩ := h
        subst h1
        intro q hq
        simp only [List.mem_singleton] at hq
        subst hq
        rfl

/-- Halting of the grouped pagination loop does not depend on later
responses when the head is not a success carrying a truthy token. -/
theorem grouped_halt (k v : String) (r : HttpResponse ThreadsData)
    (rest : List (HttpResponse ThreadsData)) (tok : Option String)
    (h : ¬(r.status_code = 200 ∧ tokenTruthy r.data.nextPageToken = true)) :
    fetch_all_comments k v (r :: rest) tok =
      fetch_all_comments k v [r] tok := by
  by_cases hs : r.status_code = 200
  · have ht : tokenTruthy r.data.nextPageToken = false := by
      cases hh : tokenTruthy r.data.nextPageToken
      · rfl
      · exact absurd ⟨hs, hh⟩ h
    simp [fetch_all_comments, hs, ht]
  · simp [fetch_all_comments, hs]

/-- An empty success page with no token yields the empty grouped corpus
(`Except.ok []`), not an error. -/
theorem grouped_empty_page (k v : String) (r : HttpResponse ThreadsData)
    (rest : List (HttpResponse ThreadsData)) (tok : Option String)
    (hs : r.status_code = 200) (hi : r.data.items.getD [] = [])
    (ht : tokenTruthy r.data.nextPageToken = false) :
    fetch_all_comments k v (r :: rest) tok =
      some ([groupedThreadsRequest k v tok], .ok []) := by
  simp [fetch_all_comments, hs, ht, hi, processGroupedItems]

/-- A failing second page makes the grouped builder abort with the raised
`HTTPException`: the status is preserved, the detail is the fixed string,
and nothing of page 1 is returned. -/
theorem grouped_error_abort (k v : String) (p1 e : HttpResponse ThreadsData)
    (rest : List (HttpResponse ThreadsData)) (tok : Option String)
    (hs : p1.status_code = 200)
    (ht : tokenTruthy p1.data.nextPageToken = true)
    (he : e.status_code ≠ 200) :
    fetch_all_comments k v (p1 :: e :: rest) tok =
      some ([groupedThreadsRequest k v tok,
             groupedThreadsRequest k v p1.data.nextPageToken],
            .error ⟨e.status_code, "Error fetching comments"⟩) := by
  rw [fetch_all_comments]
  simp only [hs, ht, ne_eq, not_true_eq_false, if_false, reduceIte, ite_true]
  rw [fetch_all_comments]
  simp [he]

/-- On a successful first page followed by a failing page, the flat builder
does not raise: it halts and returns exactly the page-1 comments — a
partial corpus. -/
theorem flat_error_returns_earlier_pages (k v : String) (o : RepliesOracle)
    (p1 e : HttpResponse ThreadsData)
    (rest : List (HttpResponse ThreadsData)) (tok : Option String)
    (u : ApiUsage) (o1 : FlatOut)
    (hs : p1.status_code = 200)
    (ht : tokenTruthy p1.data.nextPageToken = true)
    (he : e.status_code ≠ 200)
    (h1 : processThreadItems k o
            { u with commentThreads_calls := u.commentThreads_calls + 1 }
            (p1.data.items.getD []) = some o1) :
    get_video_comments_with_conditional_replies k v o (p1 :: e :: rest)
        tok u =
      some ⟨o1.comments,
            ⟨o1.usage.commentThreads_calls + 1, o1.usage.comments_calls⟩,
            threadsRequest k v tok ::
              (o1.requests ++ [threadsRequest k v p1.data.nextPageToken]),
            o1.remainderFetches⟩ := by
  rw [get_video_comments_with_conditional_replies]
  simp only [hs, ht, ne_eq, not_true_eq_false, if_false, reduceIte, h1,
    ite_true]
  rw [get_video_comments_with_conditional_replies]
  simp [he]

theorem itemBlock_head (o : RepliesOracle) (it : ThreadItem) :
    (itemBlock o it).head? = some (mkTopLevelComment it.topLevelD) := rfl

theorem mkTopLevelComment_is_reply (c : RawComment) :
    (mkTopLevelComment c).is_reply = false := rfl

theorem mkReplyComment_is_reply (c : RawComment) :
    (mkReplyComment c).is_reply = true := rfl

/-- Everything after the head of an item block is a reply. -/
theorem itemBlock_tail_is_reply (o : RepliesOracle) (it : ThreadItem) :
    ∀ c ∈ (itemBlock o it).tail, c.is_reply = true := by
  intro c hc
  simp only [itemBlock, List.tail_cons, List.mem_append] at hc
  rcases hc with hc | hc
  · obtain ⟨raw, _, hraw⟩ := List.mem_map.mp hc
    subst hraw
    rfl
  · split at hc
    · exact repliesOf_is_reply _ c hc
    · simp at hc

/-- The non-reply comments of an item block are exactly its top-level
comment. -/
theorem itemBlock_filter (o : RepliesOracle) (it : ThreadItem) :
    (itemBlock o it).filter (fun c => !c.is_reply) =
      [mkTopLevelComment it.topLevelD] := by
  have hhead : (itemBlock o it) =
      mkTopLevelComment it.topLevelD :: (itemBlock o it).tail := rfl
  rw [hhead, List.filter_cons]
  simp only [mkTopLevelComment_is_reply, Bool.not_false, if_true, reduceIte]
  rw [List.filter_eq_nil_iff.mpr]
  intro c hc
  simp [itemBlock_tail_is_reply o it c hc]

/-- The non-reply comments of one page's blocks are its items' top-level
comments, in order. -/
theorem pageBlocks_filter (o : RepliesOracle) :
    ∀ items : List ThreadItem,
      ((items.map (itemBlock o)).flatten).filter (fun c => !c.is_reply) =
        items.map (fun it => mkTopLevelComment it.topLevelD) := by
  intro items
  induction items with
  | nil => simp
  | cons it rest ih =>
    simp only [List.map_cons, List.flatten_cons, List.filter_append, ih,
      itemBlock_filter]
    rfl

/-- The non-reply comments of the whole flat corpus are exactly the
top-level comments of all processed items, in source order. -/
theorem flatCorpus_filter (o : RepliesOracle) :
    ∀ rs : List (HttpResponse ThreadsData),
      (flatCorpus o rs).filter (fun c => !c.is_reply) =
        ((rs.map pageItems).flatten).map
          (fun it => mkTopLevelComment it.topLevelD) := by
  intro rs
  induction rs with
  | nil => simp [flatCorpus]
  | cons r rest ih =>
    simp only [flatCorpus, List.map_cons, List.flatten_cons,
      List.filter_append, List.map_append] at *
    rw [ih, pageBlocks_filter]

def fixRawR3 : RawComment := sampleRaw "r3" "dave" "three" "2023"

/-- Fixture: a replies-endpoint delivery of 3 items across two
cursor-linked pages. -/
def fixRepliesStream : List (HttpResponse RepliesData) :=
  [⟨200, ⟨some [fixRawR1, fixRawR2], some "n2"⟩⟩,
   ⟨200, ⟨some [fixRawR3], none⟩⟩]

/-- Claim C1 (counterexample): with a successful page 1 (one thread, a
continuation cursor) and a 500 on page 2, the flat builder does not fail
with any error value: it returns the one comment collected from page 1 — a
partial corpus, where the claim demands failure and zero comments. -/
theorem C1_counterexample :
    get_video_comments_with_conditional_replies "k" "v" emptyOracle
        fixOkThenErrStream none ⟨0, 0⟩ =
      some ⟨[⟨"alice", "hi", "2020", false⟩], ⟨2, 0⟩,
            [threadsRequest "k" "v" none, threadsRequest "k" "v" (some "t2")],
            []⟩ := by
  decide

/-- Claim C1 (amended): on a non-success response during paging, the two
builders diverge.  The grouped builder (`fetch_all_comments`) aborts the
whole build, raising `HTTPException` with the upstream status and the fixed
detail string `"Error fetching comments"` (not the upstream body), and no
comment from the earlier successful page is returned.  The flat builder
(`get_video_comments_with_conditional_replies`) raises nothing: it stops
paging and returns the comments accumulated from the earlier successful
pages — a partial corpus. -/
theorem C1_error_behavior (k v : String) (o : RepliesOracle)
    (p1 e : HttpResponse ThreadsData)
    (rest : List (HttpResponse ThreadsData)) (tok : Option String)
    (u : ApiUsage) (o1 : FlatOut)
    (hs : p1.status_code = 200)
    (ht : tokenTruthy p1.data.nextPageToken = true)
    (he : e.status_code ≠ 200)
    (h1 : processThreadItems k o
            { u with commentThreads_calls := u.commentThreads_calls + 1 }
            (p1.data.items.getD []) = some o1) :
    get_video_comments_with_conditional_replies k v o (p1 :: e :: rest)
        tok u =
      some ⟨o1.comments,
            ⟨o1.usage.commentThreads_calls + 1, o1.usage.comments_calls⟩,
            threadsRequest k v tok ::
              (o1.requests ++ [threadsRequest k v p1.data.nextPageToken]),
            o1.remainderFetches⟩ ∧
    fetch_all_comments k v (p1 :: e :: rest) tok =
      some ([groupedThreadsRequest k v tok,
             groupedThreadsRequest k v p1.data.nextPageToken],
            .error ⟨e.status_code, "Error fetching comments"⟩) :=
  ⟨flat_error_returns_earlier_pages k v o p1 e rest tok u o1 hs ht he h1,
   grouped_error_abort k v p1 e rest tok hs ht he⟩

/-- Claim C1 (witness): the amended statement at the concrete two-page
fixture. -/
theorem C1_error_behavior_witness :
    get_video_comments_with_conditional_replies "k" "v" emptyOracle
        (⟨200, ⟨some [fixSimpleItem], some "t2"⟩⟩ ::
          ⟨500, ⟨some [], none⟩⟩ :: []) none ⟨0, 0⟩ =
      some ⟨[⟨"alice", "hi", "2020", false⟩], ⟨2, 0⟩,
            threadsRequest "k" "v" none ::
              ([] ++ [threadsRequest "k" "v" (some "t2")]), []⟩ ∧
    fetch_all_comments "k" "v"
        (⟨200, ⟨some [fixSimpleItem], some "t2"⟩⟩ ::
          ⟨500, ⟨some [], none⟩⟩ :: []) none =
      some ([groupedThreadsRequest "k" "v" none,
             groupedThreadsRequest "k" "v" (some "t2")],
            .error ⟨500, "Error fetching comments"⟩) :=
  C1_error_behavior "k" "v" emptyOracle
    ⟨200, ⟨some [fixSimpleItem], some "t2"⟩⟩ ⟨500, ⟨some [], none⟩⟩ []
    none ⟨0, 0⟩
    ⟨[⟨"alice", "hi", "2020", false⟩], ⟨1, 0⟩, [], []⟩
    (by decide) (by decide) (by decide) (by decide)

/-- Claim C2 (counterexample): the grouped builder (`fetch_all_comments`,
a build mode) processes a thread item whose declared reply count (10)
exceeds its inline reply count (0), yet makes zero calls to the replies
endpoint — its single request goes to the threads endpoint — where the
claim demands exactly one remainder-fetch sequence. -/
theorem C2_counterexample :
    fixManyItem.totalReplyCount > fixManyItem.inlineReplies.length ∧
    fetch_all_comments "k" "v" [⟨200, ⟨some [fixManyItem], none⟩⟩] none =
      some ([groupedThreadsRequest "k" "v" none],
            .ok [⟨⟨some "b", some "bob", "yo", some "2021", none⟩, []⟩]) ∧
    List.countP isCommentsReq [groupedThreadsRequest "k" "v" none] = 0 := by
  exact ⟨by decide, by rfl, by decide⟩

/-- Claim C2 (amended): in the flat builder, a remainder-fetch sequence is
initiated for a thread item if and only if its declared reply count exceeds
its inline reply count, and then it is exactly one sequence, for that
thread's parent id; when the declared count is not larger, the item is
processed with zero requests and untouched counters.  The grouped builders,
however, never call the replies endpoint for any thread: every request they
issue goes to the threads endpoint. -/
theorem C2_remainder_trigger :
    (∀ (k : String) (o : RepliesOracle) (u : ApiUsage) (it : ThreadItem)
       (out : FlatOut), processThreadItem k o u it = some out →
       out.remainderFetches =
         (if it.totalReplyCount > it.inlineReplies.length
          then [it.topLevelD.id] else [])) ∧
    (∀ (k : String) (o : RepliesOracle) (u : ApiUsage) (it : ThreadItem),
       ¬ it.totalReplyCount > it.inlineReplies.length →
       processThreadItem k o u it =
         some ⟨mkTopLevelComment it.topLevelD ::
                 it.inlineReplies.map mkReplyComment, u, [], []⟩) ∧
    (∀ (k v : String) (rs : List (HttpResponse ThreadsData))
       (tok : Option String) (reqs : List Request)
       (res : Except HttpError (List CommentGroup)),
       fetch_all_comments k v rs tok = some (reqs, res) →
       ∀ q ∈ reqs, q.endpoint = commentThreadsEndpoint) :=
  ⟨fun k o u it out h => processThreadItem_fetches k o u it out h,
   fun k o u it hc => processThreadItem_notrigger k o u it hc,
   fun k v rs tok reqs res h => grouped_all_threads_reqs k v rs tok reqs res h⟩

/-- Claim C2 (witness): the amended statement exercised at concrete
inputs — a triggered item records exactly one sequence for its parent, an
inline-sufficient item issues no request, and a concrete grouped run's only
request targets the threads endpoint. -/
theorem C2_remainder_trigger_witness :
    (⟨[⟨"alice", "hi", "2020", false⟩, ⟨"bob", "one", "2021", true⟩,
       ⟨"bob", "one", "2021", true⟩, ⟨"carol", "two", "2022", true⟩],
      ⟨0, 1⟩, [repliesRequest "k" (some "p") none],
      [some "p"]⟩ : FlatOut).remainderFetches =
      (if fixDupItem.totalReplyCount > fixDupItem.inlineReplies.length
       then [fixDupItem.topLevelD.id] else []) ∧
    processThreadItem "k" emptyOracle ⟨0, 0⟩ fixSimpleItem =
      some ⟨mkTopLevelComment fixSimpleItem.topLevelD ::
              fixSimpleItem.inlineReplies.map mkReplyComment,
            ⟨0, 0⟩, [], []⟩ ∧
    ∀ q ∈ ([groupedThreadsRequest "k" "v" none] : List Request),
      q.endpoint = commentThreadsEndpoint :=
  ⟨C2_remainder_trigger.1 "k" fixDupOracle ⟨0, 0⟩ fixDupItem _ (by decide),
   C2_remainder_trigger.2.1 "k" emptyOracle ⟨0, 0⟩ fixSimpleItem
     (by decide),
   C2_remainder_trigger.2.2 "k" "v" [⟨200, ⟨some [fixManyItem], none⟩⟩]
     none [groupedThreadsRequest "k" "v" none]
     (.ok [⟨⟨some "b", some "bob", "yo", some "2021", none⟩, []⟩])
     (by rfl)⟩

/-- Claim C3 (counterexample): in the flat build, a thread with one inline
reply and declared count 2 triggers the remainder fetch; the endpoint
delivers both replies (including the inline one, as the real endpoint
does).  The output keeps the inline reply and appends the endpoint output
after it, so the inline reply appears twice — the claim says inline replies
are not merged in and no reply appears twice. -/
theorem C3_counterexample :
    get_video_comments_with_conditional_replies "k" "v" fixDupOracle
        [⟨200, ⟨some [fixDupItem], none⟩⟩] none ⟨0, 0⟩ =
      some ⟨[⟨"alice", "hi", "2020", false⟩, ⟨"bob", "one", "2021", true⟩,
             ⟨"bob", "one", "2021", true⟩, ⟨"carol", "two", "2022", true⟩],
            ⟨1, 1⟩,
            [threadsRequest "k" "v" none,
             repliesRequest "k" (some "p") none],
            [some "p"]⟩ ∧
    List.count (⟨"bob", "one", "2021", true⟩ : Comment)
      [⟨"alice", "hi", "2020", false⟩, ⟨"bob", "one", "2021", true⟩,
       ⟨"bob", "one", "2021", true⟩, ⟨"carol", "two", "2022", true⟩] = 2 := by
  exact ⟨by decide, by decide⟩

/-- Claim C3 (amended): in the flat build, when the remainder fetch is
triggered, the thread's slice of the output is the top-level comment, then
the inline replies, then the full replies-endpoint output appended after
them — the endpoint output is treated as the remainder and the inline
replies stay in the corpus, so a reply delivered by both appears twice. -/
theorem C3_merge_strategy (k : String) (o : RepliesOracle) (u : ApiUsage)
    (it : ThreadItem) (extra : List Comment) (u2 : ApiUsage)
    (reqs : List Request)
    (hc : it.totalReplyCount > it.inlineReplies.length)
    (hr : get_remaining_replies k it.topLevelD.id (o it.topLevelD.id)
            none u = some (extra, u2, reqs)) :
    processThreadItem k o u it =
      some ⟨mkTopLevelComment it.topLevelD ::
              (it.inlineReplies.map mkReplyComment ++ extra),
            u2, reqs, [it.topLevelD.id]⟩ :=
  processThreadItem_trigger k o u it extra u2 reqs hc hr

/-- Claim C3 (witness): the amended statement at the duplicate fixture. -/
theorem C3_merge_strategy_witness :
    processThreadItem "k" fixDupOracle ⟨0, 0⟩ fixDupItem =
      some ⟨mkTopLevelComment fixDupItem.topLevelD ::
              (fixDupItem.inlineReplies.map mkReplyComment ++
                [⟨"bob", "one", "2021", true⟩,
                 ⟨"carol", "two", "2022", true⟩]),
            ⟨0, 1⟩, [repliesRequest "k" (some "p") none],
            [fixDupItem.topLevelD.id]⟩ :=
  C3_merge_strategy "k" fixDupOracle ⟨0, 0⟩ fixDupItem
    [⟨"bob", "one", "2021", true⟩, ⟨"carol", "two", "2022", true⟩]
    ⟨0, 1⟩ [repliesRequest "k" (some "p") none] (by decide) (by decide)

/-- Claim C4: for a parent whose replies endpoint delivers its items across
any number of cursor-linked successful pages (tokens on every page but the
last), `get_remaining_replies` follows the cursor to the end and returns
exactly the delivered items, in delivery order, one request per page, every
comment tagged `is_reply = true`; its length is the total item count R. -/
theorem C4_collect_replies_complete (k : String) (p tok : Option String)
    (u : ApiUsage) (rs : List (HttpResponse RepliesData))
    (h : goodRepliesStream rs = true) :
    ∃ reqs : List Request,
      get_remaining_replies k p rs tok u =
        some (repliesOf rs,
              ⟨u.commentThreads_calls, u.comments_calls + rs.length⟩,
              reqs) ∧
      reqs.length = rs.length ∧
      (repliesOf rs).length =
        (rs.map fun r => (r.data.items.getD []).length).sum ∧
      ∀ c ∈ repliesOf rs, c.is_reply = true := by
  obtain ⟨reqs, h1, h2⟩ := grr_good_spec k p rs tok u h
  exact ⟨reqs, h1, h2, repliesOf_length rs, repliesOf_is_reply rs⟩

/-- Claim C4 (witness): the completeness statement at a concrete 3-item,
two-page delivery. -/
theorem C4_collect_replies_complete_witness :
    goodRepliesStream fixRepliesStream = true ∧
    ∃ reqs : List Request,
      get_remaining_replies "k" (some "p") fixRepliesStream none ⟨0, 0⟩ =
        some (repliesOf fixRepliesStream, ⟨0, 0 + fixRepliesStream.length⟩,
              reqs) ∧
      reqs.length = fixRepliesStream.length ∧
      (repliesOf fixRepliesStream).length =
        (fixRepliesStream.map fun r => (r.data.items.getD []).length).sum ∧
      ∀ c ∈ repliesOf fixRepliesStream, c.is_reply = true :=
  ⟨by decide,
   C4_collect_replies_complete "k" (some "p") none ⟨0, 0⟩ fixRepliesStream
     (by decide)⟩

/-- Claim C5: on a fully successful flat build, the output is exactly the
page-by-page, item-by-item concatenation of item blocks; the non-reply
entries of the corpus are the top-level comments of all processed items in
source order, and each block is its top-level comment immediately followed
by that thread's replies (all tagged as replies). -/
theorem C5_flat_order (k v : String) (o : RepliesOracle)
    (rs : List (HttpResponse ThreadsData)) (tok : Option String)
    (u : ApiUsage)
    (hg : goodThreadsStream rs = true)
    (ho : ∀ r ∈ rs, ∀ it ∈ pageItems r,
      it.totalReplyCount > it.inlineReplies.length →
      goodRepliesStream (o it.topLevelD.id) = true) :
    (∃ (u' : ApiUsage) (reqs : List Request) (ps : List (Option String)),
      get_video_comments_with_conditional_replies k v o rs tok u =
        some ⟨flatCorpus o rs, u', reqs, ps⟩) ∧
    (flatCorpus o rs).filter (fun c => !c.is_reply) =
      ((rs.map pageItems).flatten).map
        (fun it => mkTopLevelComment it.topLevelD) ∧
    flatCorpus o rs =
      (rs.map fun r => ((pageItems r).map (itemBlock o)).flatten).flatten ∧
    (∀ it : ThreadItem,
      (itemBlock o it).head? = some (mkTopLevelComment it.topLevelD)) ∧
    (∀ it : ThreadItem, (mkTopLevelComment it.topLevelD).is_reply = false) ∧
    (∀ it : ThreadItem, ∀ c ∈ (itemBlock o it).tail, c.is_reply = true) :=
  ⟨flat_good k v o rs tok u hg ho, flatCorpus_filter o rs, rfl,
   fun it => itemBlock_head o it,
   fun it => mkTopLevelComment_is_reply it.topLevelD,
   fun it => itemBlock_tail_is_reply o it⟩

/-- Claim C5 (witness): the order statement at a concrete two-page build
(a thread with a triggered remainder fetch, then a simple thread). -/
theorem C5_flat_order_witness :
    goodThreadsStream
      [⟨200, ⟨some [fixDupItem], some "t2"⟩⟩,
       ⟨200, ⟨some [fixSimpleItem], none⟩⟩] = true ∧
    ((∃ (u' : ApiUsage) (reqs : List Request) (ps : List (Option String)),
      get_video_comments_with_conditional_replies "k" "v" fixDupOracle
          [⟨200, ⟨some [fixDupItem], some "t2"⟩⟩,
           ⟨200, ⟨some [fixSimpleItem], none⟩⟩] none ⟨0, 0⟩ =
        some ⟨flatCorpus fixDupOracle
                [⟨200, ⟨some [fixDupItem], some "t2"⟩⟩,
                 ⟨200, ⟨some [fixSimpleItem], none⟩⟩], u', reqs, ps⟩) ∧
    (flatCorpus fixDupOracle
        [⟨200, ⟨some [fixDupItem], some "t2"⟩⟩,
         ⟨200, ⟨some [fixSimpleItem], none⟩⟩]).filter
      (fun c => !c.is_reply) =
      (([⟨200, ⟨some [fixDupItem], some "t2"⟩⟩,
         ⟨200, ⟨some [fixSimpleItem], none⟩⟩].map pageItems).flatten).map
        (fun it => mkTopLevelComment it.topLevelD) ∧
    flatCorpus fixDupOracle
        [⟨200, ⟨some [fixDupItem], some "t2"⟩⟩,
         ⟨200, ⟨some [fixSimpleItem], none⟩⟩] =
      ([⟨200, ⟨some [fixDupItem], some "t2"⟩⟩,
        ⟨200, ⟨some [fixSimpleItem], none⟩⟩].map
          fun r => ((pageItems r).map (itemBlock fixDupOracle)).flatten).flatten ∧
    (∀ it : ThreadItem,
      (itemBlock fixDupOracle it).head? =
        some (mkTopLevelComment it.topLevelD)) ∧
    (∀ it : ThreadItem, (mkTopLevelComment it.topLevelD).is_reply = false) ∧
    (∀ it : ThreadItem, ∀ c ∈ (itemBlock fixDupOracle it).tail,
      c.is_reply = true)) :=
  ⟨by decide,
   C5_flat_order "k" "v" fixDupOracle
     [⟨200, ⟨some [fixDupItem], some "t2"⟩⟩,
      ⟨200, ⟨some [fixSimpleItem], none⟩⟩] none ⟨0, 0⟩
     (by decide) (by decide)⟩

/-- Claim C6 (counterexample): a non-success first response that itself
carries a continuation cursor (`"t2"`) halts the loop — only one threads
request is issued and the following page is never requested — although the
response "carried a continuation cursor"; likewise a success response whose
cursor is the empty string (present but falsy in Python) halts the loop. -/
theorem C6_counterexample :
    tokenTruthy fixErrWithCursor.data.nextPageToken = true ∧
    get_video_comments_with_conditional_replies "k" "v" emptyOracle
        [fixErrWithCursor, ⟨200, ⟨some [fixSimpleItem], none⟩⟩]
        none ⟨0, 0⟩ =
      some ⟨[], ⟨1, 0⟩, [threadsRequest "k" "v" none], []⟩ ∧
    fixEmptyTokenPage.data.nextPageToken = some "" ∧
    get_video_comments_with_conditional_replies "k" "v" emptyOracle
        [fixEmptyTokenPage, ⟨200, ⟨some [fixSimpleItem], none⟩⟩]
        none ⟨0, 0⟩ =
      some ⟨[], ⟨1, 0⟩, [threadsRequest "k" "v" none], []⟩ := by
  exact ⟨by decide, by decide, by decide, by decide⟩

/-- Claim C6 (amended): the threads pagination loop requests a further page
if and only if the previous response was a success (HTTP 200) carrying a
non-empty continuation cursor; otherwise the remaining responses are
irrelevant (the loop halts after that page).  The number of threads-endpoint
requests is exactly `threadsPagesConsumed`.  A success page with no items
and no cursor yields the empty corpus — `some` with `[]` in the flat
builder and `Except.ok []` in the grouped builder — not an error.  The
grouped loop halts on the same condition. -/
theorem C6_pagination_halting :
    (∀ (k v : String) (o : RepliesOracle) (r : HttpResponse ThreadsData)
       (rest : List (HttpResponse ThreadsData)) (tok : Option String)
       (u : ApiUsage),
       ¬(r.status_code = 200 ∧ tokenTruthy r.data.nextPageToken = true) →
       get_video_comments_with_conditional_replies k v o (r :: rest) tok u =
         get_video_comments_with_conditional_replies k v o [r] tok u) ∧
    (∀ (k v : String) (o : RepliesOracle)
       (rs : List (HttpResponse ThreadsData)) (tok : Option String)
       (u : ApiUsage) (out : FlatOut),
       get_video_comments_with_conditional_replies k v o rs tok u =
         some out →
       out.requests.countP isThreadsReq = threadsPagesConsumed rs) ∧
    (∀ (k v : String) (o : RepliesOracle) (r : HttpResponse ThreadsData)
       (rest : List (HttpResponse ThreadsData)) (tok : Option String)
       (u : ApiUsage),
       r.status_code = 200 → r.data.items.getD [] = [] →
       tokenTruthy r.data.nextPageToken = false →
       get_video_comments_with_conditional_replies k v o (r :: rest) tok u =
         some ⟨[], ⟨u.commentThreads_calls + 1, u.comments_calls⟩,
               [threadsRequest k v tok], []⟩) ∧
    (∀ (k v : String) (r : HttpResponse ThreadsData)
       (rest : List (HttpResponse ThreadsData)) (tok : Option String),
       ¬(r.status_code = 200 ∧ tokenTruthy r.data.nextPageToken = true) →
       fetch_all_comments k v (r :: rest) tok =
         fetch_all_comments k v [r] tok) ∧
    (∀ (k v : String) (r : HttpResponse ThreadsData)
       (rest : List (HttpResponse ThreadsData)) (tok : Option String),
       r.status_code = 200 → r.data.items.getD [] = [] →
       tokenTruthy r.data.nextPageToken = false →
       fetch_all_comments k v (r :: rest) tok =
         some ([groupedThreadsRequest k v tok], .ok [])) :=
  ⟨fun k v o r rest tok u h => flat_halt k v o r rest tok u h,
   fun k v o rs tok u out h => flat_requests_pages k v o rs tok u out h,
   fun k v o r rest tok u hs hi ht =>
     flat_empty_page k v o r rest tok u hs hi ht,
   fun k v r rest tok h => grouped_halt k v r rest tok h,
   fun k v r rest tok hs hi ht => grouped_empty_page k v r rest tok hs hi ht⟩

/-- Claim C6 (witness): the amended statement at concrete inputs — an
error page halts the flat and grouped loops regardless of the tail, the
request count matches the consumed pages on a concrete run, and an empty
final page yields the empty corpus in both builders. -/
theorem C6_pagination_halting_witness :
    get_video_comments_with_conditional_replies "k" "v" emptyOracle
        [fixErrWithCursor, fixEmptyLastPage] none ⟨0, 0⟩ =
      get_video_comments_with_conditional_replies "k" "v" emptyOracle
        [fixErrWithCursor] none ⟨0, 0⟩ ∧
    List.countP isThreadsReq [threadsRequest "k" "v" none,
        threadsRequest "k" "v" (some "t2")] =
      threadsPagesConsumed fixOkThenErrStream ∧
    get_video_comments_with_conditional_replies "k" "v" emptyOracle
        [fixEmptyLastPage] none ⟨0, 0⟩ =
      some ⟨[], ⟨0 + 1, 0⟩, [threadsRequest "k" "v" none], []⟩ ∧
    fetch_all_comments "k" "v" [fixErrWithCursor, fixEmptyLastPage] none =
      fetch_all_comments "k" "v" [fixErrWithCursor] none ∧
    fetch_all_comments "k" "v" [fixEmptyLastPage] none =
      some ([groupedThreadsRequest "k" "v" none], .ok []) :=
  ⟨C6_pagination_halting.1 "k" "v" emptyOracle fixErrWithCursor
     [fixEmptyLastPage] none ⟨0, 0⟩ (by decide),
   C6_pagination_halting.2.1 "k" "v" emptyOracle fixOkThenErrStream none
     ⟨0, 0⟩ ⟨[⟨"alice", "hi", "2020", false⟩], ⟨2, 0⟩,
       [threadsRequest "k" "v" none, threadsRequest "k" "v" (some "t2")],
       []⟩ (by decide),
   C6_pagination_halting.2.2.1 "k" "v" emptyOracle fixEmptyLastPage []
     none ⟨0, 0⟩ (by decide) (by decide) (by decide),
   C6_pagination_halting.2.2.2.1 "k" "v" fixErrWithCursor
     [fixEmptyLastPage] none (by decide),
   C6_pagination_halting.2.2.2.2 "k" "v" fixEmptyLastPage [] none
     (by decide) (by decide) (by decide)⟩

/-- Claim C7: `fetch_top_comments` issues exactly one request, to the
threads endpoint with relevance ordering and page size `min limit 100`
(default limit 100), with no cursor parameter; the result holds at most
`limit` thread records; the response's continuation cursor is ignored (the
result is unchanged whatever cursor the response carries, so no second page
is ever requested); no request carries the time ordering and none goes to
the replies endpoint. -/
theorem C7_top_n_single_page (k v : String) (limit : Nat)
    (r : HttpResponse ThreadsData) :
    (fetch_top_comments k v limit r).1 = [topCommentsRequest k v limit] ∧
    (topCommentsRequest k v limit).order = some "relevance" ∧
    (topCommentsRequest k v limit).order ≠ some "time" ∧
    (topCommentsRequest k v limit).maxResults = min limit 100 ∧
    (topCommentsRequest k v limit).endpoint = commentThreadsEndpoint ∧
    (topCommentsRequest k v limit).endpoint ≠ commentsEndpoint ∧
    (topCommentsRequest k v limit).pageToken = none ∧
    (∀ gs : List CommentGroup,
      (fetch_top_comments k v limit r).2 = .ok gs → gs.length ≤ limit) ∧
    (∀ t : Option String,
      fetch_top_comments k v limit ⟨r.status_code, ⟨r.data.items, t⟩⟩ =
        fetch_top_comments k v limit
          ⟨r.status_code, ⟨r.data.items, none⟩⟩) ∧
    fetch_top_comments_default k v r = fetch_top_comments k v 100 r := by
  refine ⟨?_, rfl, by simp [topCommentsRequest], rfl, rfl, ?_, rfl, ?_, fun t => rfl, rfl⟩
  · simp only [fetch_top_comments]
    split <;> rfl
  · exact endpoints_distinct
  · intro gs hgs
    simp only [fetch_top_comments] at hgs
    split at hgs
    · exact absurd hgs (by simp)
    · simp only [Except.ok.injEq] at hgs
      subst hgs
      calc (processGroupedItems ((r.data.items.getD []).take limit)).length
          ≤ ((r.data.items.getD []).take limit).length :=
            List.length_filterMap_le _ _
        _ ≤ limit := by simp [List.length_take]

/-- Claim C7 (witness): a concrete relevance run with `limit = 2` over a
three-item page returns two groups and one request. -/
theorem C7_top_n_single_page_witness :
    (fetch_top_comments "k" "v" 2
        ⟨200, ⟨some [fixSimpleItem, fixManyItem, fixDupItem], some "t2"⟩⟩).1 =
      [topCommentsRequest "k" "v" 2] ∧
    (fetch_top_comments "k" "v" 2
        ⟨200, ⟨some [fixSimpleItem, fixManyItem, fixDupItem],
               some "t2"⟩⟩).2 =
      .ok [⟨⟨some "id1", some "alice", "hi", some "2020", none⟩, []⟩,
           ⟨⟨some "b", some "bob", "yo", some "2021", none⟩, []⟩] ∧
    ([⟨⟨some "id1", some "alice", "hi", some "2020", none⟩, []⟩,
      ⟨⟨some "b", some "bob", "yo", some "2021", none⟩, []⟩] :
        List CommentGroup).length ≤ 2 :=
  ⟨(C7_top_n_single_page "k" "v" 2
      ⟨200, ⟨some [fixSimpleItem, fixManyItem, fixDupItem],
             some "t2"⟩⟩).1,
   by rfl,
   (C7_top_n_single_page "k" "v" 2
      ⟨200, ⟨some [fixSimpleItem, fixManyItem, fixDupItem],
             some "t2"⟩⟩).2.2.2.2.2.2.2.1 _ (by rfl)⟩

/-- Claim C8 (counterexample): `filter_comment` (the normalisation of the
grouped builders, cited by the claim) passes a missing author display name
and a missing published timestamp through as absent values — not as the
placeholder or the `"N/A"` sentinel the claim asserts for every normalised
comment. -/
theorem C8_counterexample :
    (filter_comment ⟨none, none⟩).author = none ∧
    (filter_comment ⟨none, none⟩).publishedAt = none :=
  ⟨rfl, rfl⟩

/-- Claim C8 (amended): the `commentThread.py` normalisations substitute
the `"Unknown"` placeholder for a missing author and the `"N/A"` sentinel
for a missing timestamp, and pass present values through unchanged; the
`filter_comment` normalisation of the grouped builders instead passes the
author and timestamp through as they are — present values unchanged,
missing values as absent values (`none`), with no placeholder. -/
theorem C8_missing_field_defaults :
    (∀ c : RawComment, c.snippetD.authorDisplayName = none →
      (mkReplyComment c).author = "Unknown" ∧
      (mkTopLevelComment c).author = "Unknown" ∧
      (filter_comment c).author = none) ∧
    (∀ c : RawComment, c.snippetD.publishedAt = none →
      (mkReplyComment c).published_at = "N/A" ∧
      (mkTopLevelComment c).published_at = "N/A" ∧
      (filter_comment c).publishedAt = none) ∧
    (∀ (c : RawComment) (a : String),
      c.snippetD.authorDisplayName = some a →
      (mkReplyComment c).author = a ∧ (mkTopLevelComment c).author = a ∧
      (filter_comment c).author = some a) ∧
    (∀ (c : RawComment) (p : String), c.snippetD.publishedAt = some p →
      (mkReplyComment c).published_at = p ∧
      (mkTopLevelComment c).published_at = p ∧
      (filter_comment c).publishedAt = some p) := by
  refine ⟨fun c h => ?_, fun c h => ?_, fun c a h => ?_, fun c p h => ?_⟩ <;>
    simp [mkReplyComment, mkTopLevelComment, filter_comment, h]

/-- Claim C8 (witness): the amended statement at concrete raw comments with
missing and with present fields. -/
theorem C8_missing_field_defaults_witness :
    ((mkReplyComment ⟨none, none⟩).author = "Unknown" ∧
      (mkTopLevelComment ⟨none, none⟩).author = "Unknown" ∧
      (filter_comment ⟨none, none⟩).author = none) ∧
    ((mkReplyComment ⟨none, none⟩).published_at = "N/A" ∧
      (mkTopLevelComment ⟨none, none⟩).published_at = "N/A" ∧
      (filter_comment ⟨none, none⟩).publishedAt = none) ∧
    ((mkReplyComment fixRawR1).author = "bob" ∧
      (mkTopLevelComment fixRawR1).author = "bob" ∧
      (filter_comment fixRawR1).author = some "bob") ∧
    ((mkReplyComment fixRawR1).published_at = "2021" ∧
      (mkTopLevelComment fixRawR1).published_at = "2021" ∧
      (filter_comment fixRawR1).publishedAt = some "2021") :=
  ⟨C8_missing_field_defaults.1 ⟨none, none⟩ rfl,
   C8_missing_field_defaults.2.1 ⟨none, none⟩ rfl,
   C8_missing_field_defaults.2.2.1 fixRawR1 "bob" (by decide),
   C8_missing_field_defaults.2.2.2 fixRawR1 "2021" (by decide)⟩

/-- Claim C9: a thread item with no `topLevelComment` entry contributes no
group, and removing it from a page leaves the processing of the remaining
items untouched — the shared grouped item loop (used by both grouped
builders and the top-comments builder) skips it without error. -/
theorem C9_skip_missing_top (pre post : List ThreadItem) (it : ThreadItem)
    (h : it.snippetD.topLevelComment = none) :
    groupOfItem it = none ∧
    processGroupedItems (pre ++ it :: post) =
      processGroupedItems (pre ++ post) := by
  have hnone : groupOfItem it = none := by
    simp [groupOfItem, h]
  refine ⟨hnone, ?_⟩
  simp [processGroupedItems, List.filterMap_append, List.filterMap_cons,
    hnone]

/-- Claim C9 (witness): the skip statement at a concrete page whose middle
item lacks a `topLevelComment`. -/
theorem C9_skip_missing_top_witness :
    groupOfItem ⟨some ⟨none, some 3⟩, some [fixRawR1]⟩ = none ∧
    processGroupedItems
        ([fixSimpleItem] ++ ⟨some ⟨none, some 3⟩, some [fixRawR1]⟩ ::
          [fixManyItem]) =
      processGroupedItems ([fixSimpleItem] ++ [fixManyItem]) :=
  C9_skip_missing_top [fixSimpleItem] [fixManyItem]
    ⟨some ⟨none, some 3⟩, some [fixRawR1]⟩ (by decide)

/-- Claim C10: threading the `api_usage` counters through a run, every
request of `get_remaining_replies` bumps `comments_calls` by exactly one
(error responses included, since the bump precedes the status check) and
every request of the flat builder bumps the counter matching its endpoint
by exactly one; the counters are never reset, so across two successive
invocations the increments add up on top of the starting values. -/
theorem C10_api_usage_counters :
    (∀ (k : String) (p : Option String)
       (rs : List (HttpResponse RepliesData)) (tok : Option String)
       (u : ApiUsage) (cs : List Comment) (u' : ApiUsage)
       (reqs : List Request),
       get_remaining_replies k p rs tok u = some (cs, u', reqs) →
       u' = ⟨u.commentThreads_calls, u.comments_calls + reqs.length⟩ ∧
         1 ≤ reqs.length ∧ ∀ q ∈ reqs, q.endpoint = commentsEndpoint) ∧
    (∀ (k v : String) (o : RepliesOracle)
       (rs : List (HttpResponse ThreadsData)) (tok : Option String)
       (u : ApiUsage) (out : FlatOut),
       get_video_comments_with_conditional_replies k v o rs tok u =
         some out →
       out.usage =
         ⟨u.commentThreads_calls + out.requests.countP isThreadsReq,
          u.comments_calls + out.requests.countP isCommentsReq⟩) ∧
    (∀ (k v : String) (o : RepliesOracle)
       (rs1 rs2 : List (HttpResponse ThreadsData))
       (tok1 tok2 : Option String) (u : ApiUsage) (out1 out2 : FlatOut),
       get_video_comments_with_conditional_replies k v o rs1 tok1 u =
         some out1 →
       get_video_comments_with_conditional_replies k v o rs2 tok2
           out1.usage = some out2 →
       out2.usage =
         ⟨u.commentThreads_calls + out1.requests.countP isThreadsReq +
            out2.requests.countP isThreadsReq,
          u.comments_calls + out1.requests.countP isCommentsReq +
            out2.requests.countP isCommentsReq⟩) := by
  refine ⟨fun k p rs tok u cs u' reqs h =>
      (fun hh => ⟨hh.1, hh.2.1, fun q hq => (hh.2.2 q hq).1⟩)
        (grr_usage_spec k p rs tok u cs u' reqs h),
    fun k v o rs tok u out h => flat_usage k v o rs tok u out h, ?_⟩
  intro k v o rs1 rs2 tok1 tok2 u out1 out2 h1 h2
  have e1 := flat_usage k v o rs1 tok1 u out1 h1
  have e2 := flat_usage k v o rs2 tok2 out1.usage out2 h2
  rw [e2, e1]

/-- Claim C10 (witness): the counter statement at concrete runs — a
single-page reply fetch, the two-page flat run ending in an error, and the
same run repeated from the final counters of the first. -/
theorem C10_api_usage_counters_witness :
    (⟨0, 0 + 1⟩ : ApiUsage) =
      ⟨(⟨0, 0⟩ : ApiUsage).commentThreads_calls,
       (⟨0, 0⟩ : ApiUsage).comments_calls +
         [repliesRequest "k" (some "p") none].length⟩ ∧
    (⟨2, 0⟩ : ApiUsage) =
      ⟨(⟨0, 0⟩ : ApiUsage).commentThreads_calls +
         List.countP isThreadsReq
           [threadsRequest "k" "v" none,
            threadsRequest "k" "v" (some "t2")],
       (⟨0, 0⟩ : ApiUsage).comments_calls +
         List.countP isCommentsReq
           [threadsRequest "k" "v" none,
            threadsRequest "k" "v" (some "t2")]⟩ ∧
    (⟨4, 0⟩ : ApiUsage) =
      ⟨(⟨0, 0⟩ : ApiUsage).commentThreads_calls +
         List.countP isThreadsReq
           [threadsRequest "k" "v" none,
            threadsRequest "k" "v" (some "t2")] +
         List.countP isThreadsReq
           [threadsRequest "k" "v" none,
            threadsRequest "k" "v" (some "t2")],
       (⟨0, 0⟩ : ApiUsage).comments_calls +
         List.countP isCommentsReq
           [threadsRequest "k" "v" none,
            threadsRequest "k" "v" (some "t2")] +
         List.countP isCommentsReq
           [threadsRequest "k" "v" none,
            threadsRequest "k" "v" (some "t2")]⟩ := by
  refine ⟨?_, ?_, ?_⟩
  · have h := C10_api_usage_counters.1 "k" (some "p")
      [⟨200, ⟨some [fixRawR1], none⟩⟩] none ⟨0, 0⟩
      [⟨"bob", "one", "2021", true⟩] ⟨0, 1⟩
      [repliesRequest "k" (some "p") none] (by decide)
    exact h.1
  · exact C10_api_usage_counters.2.1 "k" "v" emptyOracle fixOkThenErrStream
      none ⟨0, 0⟩
      ⟨[⟨"alice", "hi", "2020", false⟩], ⟨2, 0⟩,
       [threadsRequest "k" "v" none, threadsRequest "k" "v" (some "t2")],
       []⟩ (by decide)
  · exact C10_api_usage_counters.2.2 "k" "v" emptyOracle fixOkThenErrStream
      fixOkThenErrStream none none ⟨0, 0⟩
      ⟨[⟨"alice", "hi", "2020", false⟩], ⟨2, 0⟩,
       [threadsRequest "k" "v" none, threadsRequest "k" "v" (some "t2")],
       []⟩
      ⟨[⟨"alice", "hi", "2020", false⟩], ⟨4, 0⟩,
       [threadsRequest "k" "v" none, threadsRequest "k" "v" (some "t2")],
       []⟩ (by decide) (by decide)
